import Mathlib

/-!
Verification of the attendance record-entry subsystem of the
ocilab-school-system front end.

The definitions below are a shallow embedding of
`src/components/teacher/TeacherAttendance.tsx` and of the attendance
request/response types declared in `src/services/teacher.service.ts`.
The component keeps its buffer in React state: a list of per-student
records (`students`), a single buffer-wide `hasChanges` boolean, and the
selected class / section / date.  The handlers `loadStudents`,
`handleStatusChange`, `handleMarkAll` and `handleSaveAttendance` are
translated one for one; the network call made by `handleSaveAttendance`
is represented by the request value it builds together with an abstract
outcome (success or failure) of the awaited call.
-/

namespace SchoolSystem

/-- The closed attendance status enumeration from
`StudentAttendance.status` / `MarkAttendanceRequest.entries[].status`. -/
inductive AttendanceStatus where
  | PRESENT
  | ABSENT
  | LATE
  | HALF_DAY
  | EXCUSED
deriving DecidableEq, Repr

/-- `interface StudentAttendance` of TeacherAttendance.tsx: one buffer
record per roster student. -/
structure StudentAttendance where
  id : String
  rollNumber : String
  firstName : String
  lastName : String
  status : AttendanceStatus
deriving DecidableEq, Repr

/-- `interface AttendanceStudent` of teacher.service.ts: a roster entry
as returned by `getAttendanceStudents`.  `defaultStatus` is a required
field of the interface. -/
structure AttendanceStudent where
  id : String
  firstName : String
  lastName : String
  rollNumber : String
  defaultStatus : AttendanceStatus
deriving DecidableEq, Repr

/-- The component state of `TeacherAttendance` that the record-entry
logic reads and writes: the selected class/section/date, the record
buffer `students`, and the buffer-wide `hasChanges` flag.  (Purely
presentational state — search query, loading spinners, the class list —
is not part of the buffer logic.) -/
structure AttendanceState where
  selectedClassId : String
  selectedSectionId : String
  attendanceDate : String
  students : List StudentAttendance
  hasChanges : Bool
deriving DecidableEq, Repr

/-- One entry of `MarkAttendanceRequest.entries`; `handleSaveAttendance`
builds entries with only `studentId` and `status` (no remarks). -/
structure MarkAttendanceEntry where
  studentId : String
  status : AttendanceStatus
deriving DecidableEq, Repr

/-- `interface MarkAttendanceRequest` of teacher.service.ts.  Optional
fields of the TypeScript interface are `Option`s here. -/
structure MarkAttendanceRequest where
  classId : String
  sectionId : Option String
  attendanceDate : Option String
  allowOverride : Option Bool
  entries : List MarkAttendanceEntry
deriving DecidableEq, Repr

/-- `loadStudents` (TeacherAttendance.tsx lines 56-74): replaces the
buffer with one record per roster entry, copying id, roll number and
names, and taking `status` from the entry's `defaultStatus`.  The
function touches no other piece of state — in particular it does not
reset `hasChanges`. -/
def loadStudents (studentsData : List AttendanceStudent)
    (st : AttendanceState) : AttendanceState :=
  { st with
    students := studentsData.map (fun s =>
      { id := s.id
        rollNumber := s.rollNumber
        firstName := s.firstName
        lastName := s.lastName
        status := s.defaultStatus }) }

/-- `handleStatusChange` (lines 89-92): maps over the buffer replacing
the status of every record whose id matches, then unconditionally sets
`hasChanges` to true. -/
def handleStatusChange (studentId : String) (status : AttendanceStatus)
    (st : AttendanceState) : AttendanceState :=
  { st with
    students := st.students.map (fun s =>
      if s.id = studentId then { s with status := status } else s)
    hasChanges := true }

/-- `handleMarkAll` (lines 94-98): sets every record's status and sets
`hasChanges` to true. -/
def handleMarkAll (status : AttendanceStatus)
    (st : AttendanceState) : AttendanceState :=
  { st with
    students := st.students.map (fun s => { s with status := status })
    hasChanges := true }

/-- The bulk request value built inside `handleSaveAttendance`
(lines 108-116): class/section/date context plus one entry
`{studentId, status}` per record currently in the buffer.
`sectionId: selectedSectionId || undefined` sends the section only when
non-empty; `allowOverride` is never set by the component. -/
def buildMarkAttendanceRequest (st : AttendanceState) :
    MarkAttendanceRequest :=
  { classId := st.selectedClassId
    sectionId :=
      if st.selectedSectionId = "" then none else some st.selectedSectionId
    attendanceDate := some st.attendanceDate
    allowOverride := none
    entries := st.students.map (fun s =>
      { studentId := s.id, status := s.status }) }

/-- Outcome of the awaited `teacherService.markAttendance` call: the
promise either resolves or rejects (the component's catch block treats
every rejection alike). -/
inductive SaveOutcome where
  | success
  | failure
deriving DecidableEq, Repr

/-- `handleSaveAttendance` (lines 100-125).  Returns the state after the
handler finishes together with the request sent, `none` when no network
call was made.  The only early return is `!selectedClassId` (an error
toast, no request).  Otherwise the request is sent; when the call
resolves, `hasChanges` is set to false; when it rejects, the catch block
only shows a toast and the state is untouched. -/
def handleSaveAttendance (st : AttendanceState) (outcome : SaveOutcome) :
    AttendanceState × Option MarkAttendanceRequest :=
  if st.selectedClassId = "" then
    (st, none)
  else
    match outcome with
    | .success => ({ st with hasChanges := false },
                   some (buildMarkAttendanceRequest st))
    | .failure => (st, some (buildMarkAttendanceRequest st))

/-- A discrete user/async event driving the component, used to talk
about reachable buffer states.  `selectClass` also clears the selected
section, as the class `Select`'s `onValueChange` does. -/
inductive Event where
  | selectClass (classId : String)
  | selectSection (sectionId : String)
  | setDate (date : String)
  | load (studentsData : List AttendanceStudent)
  | statusChange (studentId : String) (status : AttendanceStatus)
  | markAll (status : AttendanceStatus)
  | save (outcome : SaveOutcome)
deriving Repr

/-- Apply one event to the component state. -/
def applyEvent (st : AttendanceState) : Event → AttendanceState
  | .selectClass c => { st with selectedClassId := c, selectedSectionId := "" }
  | .selectSection s => { st with selectedSectionId := s }
  | .setDate d => { st with attendanceDate := d }
  | .load data => loadStudents data st
  | .statusChange i s => handleStatusChange i s st
  | .markAll s => handleMarkAll s st
  | .save o => (handleSaveAttendance st o).1

/-- Apply a sequence of events. -/
def applyEvents (st : AttendanceState) (events : List Event) :
    AttendanceState :=
  events.foldl applyEvent st

/-- The component's initial state (`useState` initializers): empty
selections, empty buffer, `hasChanges = false`.  The initial date is the
current day; it is a parameter here. -/
def initialState (today : String) : AttendanceState :=
  { selectedClassId := ""
    selectedSectionId := ""
    attendanceDate := today
    students := []
    hasChanges := false }

/-- Modelled from the spec: `ReconciliationPolicy` and its Context are
absent from the source tree — only the optional `allowOverride` field of
`MarkAttendanceRequest` is declared in teacher.service.ts.  The spec's
Context: class id, optional section id, optional date, and the
`allowOverride` flag. -/
structure Context where
  classId : String
  sectionId : Option String
  date : Option String
  allowOverride : Bool
deriving DecidableEq, Repr

/-- Modelled from the spec: `ReconciliationPolicy.mayResubmit(context,
priorSubmissionExists)` returns true if `context.allowOverride` is true,
or if no prior submission exists for that Context; false otherwise. -/
def mayResubmit (context : Context) (priorSubmissionExists : Bool) : Bool :=
  context.allowOverride || !priorSubmissionExists

/-! Concrete fixtures used by counterexamples and witnesses. -/

/-- A two-student roster, both with server default PRESENT. -/
def rosterA : List AttendanceStudent :=
  [{ id := "s1", firstName := "Ann", lastName := "Ali", rollNumber := "1",
     defaultStatus := .PRESENT },
   { id := "s2", firstName := "Ben", lastName := "Bey", rollNumber := "2",
     defaultStatus := .PRESENT }]

/-- A one-student roster for a second class. -/
def rosterB : List AttendanceStudent :=
  [{ id := "s3", firstName := "Cem", lastName := "Can", rollNumber := "1",
     defaultStatus := .PRESENT }]

/-- State reached by selecting class c1 and loading rosterA. -/
def stateA : AttendanceState :=
  applyEvents (initialState "2026-10-11") [.selectClass "c1", .load rosterA]

/-- stateA after the user marks s1 absent: by the spec's definition of
dirty, s1 is dirty and s2 is not (s2 still has its server default). -/
def stateB : AttendanceState :=
  applyEvent stateA (.statusChange "s1" .ABSENT)

/-- Helper: a map that rewrites no element is the identity. -/
theorem map_id_of_fixed {α : Type} (f : α → α) :
    ∀ (l : List α), (∀ a ∈ l, f a = a) → l.map f = l
  | [], _ => rfl
  | a :: l, h => by
      simp only [List.map_cons]
      rw [h a (List.mem_cons_self a l), map_id_of_fixed f l]
      intro b hb
      exact h b (List.mem_cons_of_mem a hb)

end SchoolSystem

namespace SchoolSystem

/-- C2: for every buffer state, when the awaited `markAttendance` call
rejects (any transport or server error — the catch block does not
distinguish override conflicts), the handler leaves the component state
exactly as it was: every record keeps its status and the `hasChanges`
flag keeps its value, so the caller may retry unchanged. -/
theorem C2_failure_preserves_buffer (st : AttendanceState) :
    (handleSaveAttendance st .failure).1 = st := by
  unfold handleSaveAttendance
  split <;> rfl

/-- C3 counterexample: a reachable state with class c1 selected, an
empty buffer and `hasChanges = false` — the dirty set is empty in every
sense — yet `handleSaveAttendance` performs the network call, sending a
request with an empty entries list; no `EmptySubmissionError` exists in
the code. -/
theorem C3_counterexample :
    (applyEvents (initialState "2026-10-11") [.selectClass "c1"]).students = []
    ∧ (applyEvents (initialState "2026-10-11") [.selectClass "c1"]).hasChanges = false
    ∧ (handleSaveAttendance
        (applyEvents (initialState "2026-10-11") [.selectClass "c1"]) .success).2
      = some { classId := "c1", sectionId := none,
               attendanceDate := some "2026-10-11", allowOverride := none,
               entries := [] } := by
  refine ⟨rfl, rfl, ?_⟩
  decide

/-- C3 amended: `handleSaveAttendance` performs no emptiness check at
all; whether a network call happens depends only on a class being
selected — with a class selected, one request is sent regardless of the
dirty set (even an empty buffer); with no class selected, no request is
sent (an error toast, not an `EmptySubmissionError`). -/
theorem C3_no_empty_check (st : AttendanceState) (o : SaveOutcome) :
    (handleSaveAttendance st o).2.isSome = !(st.selectedClassId == "") := by
  unfold handleSaveAttendance
  split
  · rename_i h
    simp [h]
  · rename_i h
    cases o <;> simp [h]

/-- C5 counterexample: the reachable state in which the user re-marks s1
with its already-confirmed value PRESENT.  Every record's status equals
the server-confirmed default (`rosterA.map defaultStatus`), so by the
claim no record is dirty — yet the code's dirty flag `hasChanges` is
true, because `handleStatusChange` sets it unconditionally. -/
theorem C5_counterexample :
    (applyEvent stateA (.statusChange "s1" .PRESENT)).students.map
        (fun s => s.status)
      = rosterA.map (fun s => s.defaultStatus)
    ∧ (applyEvent stateA (.statusChange "s1" .PRESENT)).hasChanges = true := by
  constructor
  · decide
  · rfl

/-- C5 amended: the code keeps a single buffer-wide `hasChanges` flag,
not per-record dirty flags.  It is set to true by every invocation of
`handleStatusChange` or `handleMarkAll` (even one writing a value equal
to the old one), left unchanged by `loadStudents`, and set to false only
by a successful save with a class selected (a failed save, or a save
with no class selected, leaves it unchanged). -/
theorem C5_global_flag_not_value_divergence (st : AttendanceState)
    (d : List AttendanceStudent) (i : String) (stat : AttendanceStatus)
    (o : SaveOutcome) :
    (handleStatusChange i stat st).hasChanges = true
    ∧ (handleMarkAll stat st).hasChanges = true
    ∧ (loadStudents d st).hasChanges = st.hasChanges
    ∧ (handleSaveAttendance st o).1.hasChanges =
        (if st.selectedClassId = "" then st.hasChanges
         else match o with
              | .success => false
              | .failure => st.hasChanges) := by
  refine ⟨rfl, rfl, rfl, ?_⟩
  unfold handleSaveAttendance
  split
  · rename_i h
    simp [h]
  · rename_i h
    cases o <;> simp [h]

/-- C7 counterexample: take any context for which the spec policy
forbids resubmission (prior submission exists, `allowOverride = false`):
`mayResubmit` is false, yet the coordinator in the code still sends the
bulk request from the dirty state `stateB` — `handleSaveAttendance`
produces a request (with no `allowOverride` field) instead of raising
`OverrideRequiredError` without sending.  No pre-check is consulted. -/
theorem C7_counterexample :
    mayResubmit { classId := "c1", sectionId := none,
                  date := some "2026-10-11", allowOverride := false } true
      = false
    ∧ (handleSaveAttendance stateB .failure).2.isSome = true
    ∧ (handleSaveAttendance stateB .failure).2.map
        (fun r => r.allowOverride) = some none
    ∧ (handleSaveAttendance stateB .failure).1.hasChanges = true := by
  refine ⟨rfl, ?_, ?_, ?_⟩ <;> decide

/-- C7 amended: `mayResubmit` (modelled from the spec; absent from the
source) returns false exactly when `allowOverride` is false and a prior
submission exists.  The coordinator in the code, however, performs no
such pre-check: whenever a class is selected it sends the bulk request,
always with `allowOverride` unset, and never raises an
`OverrideRequiredError` client-side; override handling is left entirely
to the server. -/
theorem C7_mayResubmit_truth_table_and_no_precheck (ctx : Context)
    (prior : Bool) (st : AttendanceState) (o : SaveOutcome) :
    (mayResubmit ctx prior = false ↔
      (ctx.allowOverride = false ∧ prior = true))
    ∧ (handleSaveAttendance st o).2 =
        (if st.selectedClassId = "" then none
         else some (buildMarkAttendanceRequest st))
    ∧ (buildMarkAttendanceRequest st).allowOverride = none := by
  refine ⟨?_, ?_, rfl⟩
  · unfold mayResubmit
    cases ctx.allowOverride <;> cases prior <;> simp
  · unfold handleSaveAttendance
    split
    · rfl
    · cases o <;> rfl

/-- C8: after `handleMarkAll status` on a buffer of N records, the
buffer still has N records, every record's status equals `status`, the
change flag is set, and the bulk payload that a save would now send has
exactly N entries, each carrying `status`. -/
theorem C8_markAll_marks_every_record (st : AttendanceState)
    (status : AttendanceStatus) :
    (handleMarkAll status st).students.length = st.students.length
    ∧ (handleMarkAll status st).students.all
        (fun s => s.status == status) = true
    ∧ (handleMarkAll status st).hasChanges = true
    ∧ (buildMarkAttendanceRequest (handleMarkAll status st)).entries.length
        = st.students.length
    ∧ (buildMarkAttendanceRequest (handleMarkAll status st)).entries.all
        (fun e => e.status == status) = true := by
  refine ⟨by simp [handleMarkAll], ?_, rfl, ?_, ?_⟩
  · simp [handleMarkAll, List.all_eq_true]
  · simp [handleMarkAll, buildMarkAttendanceRequest]
  · simp [handleMarkAll, buildMarkAttendanceRequest, List.all_eq_true]

/-- C9 counterexample: edit, switch class, reload — the trace selects
c1, loads rosterA, marks all absent, selects c2 and loads rosterB.
Immediately after the load, every record's status is the verbatim server
default, yet `hasChanges` is still true from the pre-switch edit: the
dirty set is not empty after load, contradicting the claim. -/
theorem C9_counterexample :
    (applyEvents (initialState "2026-10-11")
        [.selectClass "c1", .load rosterA, .markAll .ABSENT,
         .selectClass "c2", .load rosterB]).students.map (fun s => s.status)
      = rosterB.map (fun s => s.defaultStatus)
    ∧ (applyEvents (initialState "2026-10-11")
        [.selectClass "c1", .load rosterA, .markAll .ABSENT,
         .selectClass "c2", .load rosterB]).hasChanges = true := by
  exact ⟨by decide, rfl⟩

/-- C9 amended: every roster entry returned by the server carries a
required `defaultStatus`; `loadStudents` copies it verbatim, so no
client-side fallback status exists and no entity can lack a default (the
claim's premise never arises).  Load also leaves `hasChanges` untouched,
so the dirty state is empty after load only when it already was. -/
theorem C9_status_copied_from_server_default (d : List AttendanceStudent)
    (st : AttendanceState) :
    (loadStudents d st).students.map (fun s => s.status)
      = d.map (fun s => s.defaultStatus)
    ∧ (loadStudents d st).hasChanges = st.hasChanges := by
  refine ⟨?_, rfl⟩
  simp [loadStudents]

/-- C1 counterexample: in `stateB` the record s2 still holds its
server-confirmed default PRESENT (so it is not dirty under the spec's
definition of dirty), yet the bulk payload the save handler sends
contains an entry for s2: the payload is built from every record in the
buffer, not from the dirty ones. -/
theorem C1_counterexample :
    (stateB.students.filter (fun s => s.id == "s2")).map (fun s => s.status)
      = [.PRESENT]
    ∧ (rosterA.filter (fun s => s.id == "s2")).map (fun s => s.defaultStatus)
      = [.PRESENT]
    ∧ (handleSaveAttendance stateB .success).2.map
        (fun r => r.entries.countP (fun e => e.studentId == "s2"))
      = some 1 := by
  refine ⟨?_, ?_, ?_⟩ <;> decide

/-- C1 amended: with a class selected, `handleSaveAttendance` sends a
single bulk request whose entries list the whole buffer: exactly one
entry `{studentId, status}` per record, in buffer order, whether or not
the record is dirty. -/
theorem C1_submit_sends_one_entry_per_record (st : AttendanceState)
    (o : SaveOutcome) (h : st.selectedClassId ≠ "") :
    (handleSaveAttendance st o).2 = some (buildMarkAttendanceRequest st)
    ∧ (buildMarkAttendanceRequest st).entries.length = st.students.length
    ∧ ∀ i (hi : i < st.students.length)
        (hi' : i < (buildMarkAttendanceRequest st).entries.length),
        ((buildMarkAttendanceRequest st).entries.get ⟨i, hi'⟩).studentId
            = (st.students.get ⟨i, hi⟩).id
        ∧ ((buildMarkAttendanceRequest st).entries.get ⟨i, hi'⟩).status
            = (st.students.get ⟨i, hi⟩).status := by
  refine ⟨?_, by simp [buildMarkAttendanceRequest], ?_⟩
  · unfold handleSaveAttendance
    split
    · exact absurd (by assumption) h
    · cases o <;> rfl
  · intro i hi hi'
    simp [buildMarkAttendanceRequest, List.get_eq_getElem]

/-- Witness for C1: the amended theorem applied to the concrete dirty
state `stateB`. -/
theorem C1_witness :
    (handleSaveAttendance stateB .success).2
      = some (buildMarkAttendanceRequest stateB)
    ∧ ((buildMarkAttendanceRequest stateB).entries.get
        ⟨0, by decide⟩).studentId = "s1" :=
  ⟨(C1_submit_sends_one_entry_per_record stateB .success (by decide)).1,
   by
    have h := (C1_submit_sends_one_entry_per_record stateB .success
      (by decide)).2.2 0 (by decide) (by decide)
    exact h.1.trans (by decide)⟩

/-- C4 counterexample: `handleStatusChange` invoked with an id absent
from the buffer raises no `NotFoundError` (the handler is total) and
does not leave the state unchanged: the records are untouched but the
`hasChanges` flag flips from false to true. -/
theorem C4_counterexample :
    (handleStatusChange "unknown-id" .PRESENT stateA).students
      = stateA.students
    ∧ stateA.hasChanges = false
    ∧ (handleStatusChange "unknown-id" .PRESENT stateA).hasChanges = true
    ∧ handleStatusChange "unknown-id" .PRESENT stateA ≠ stateA := by
  refine ⟨?_, rfl, rfl, ?_⟩ <;> decide

/-- C4 amended: when the id matches no record, `handleStatusChange`
silently leaves every record unchanged — no error of any kind — but
still sets the buffer-wide `hasChanges` flag to true, so the state is
not completely unchanged. -/
theorem C4_unknown_id_silent_flag_set (st : AttendanceState)
    (studentId : String) (status : AttendanceStatus)
    (h : ∀ s ∈ st.students, s.id ≠ studentId) :
    (handleStatusChange studentId status st).students = st.students
    ∧ (handleStatusChange studentId status st).hasChanges = true := by
  refine ⟨?_, rfl⟩
  show st.students.map _ = st.students
  apply map_id_of_fixed
  intro s hs
  simp [h s hs]

/-- Witness for C4: the amended theorem at `stateA` with an unknown
id. -/
theorem C4_witness :
    (handleStatusChange "zzz" .LATE stateA).students = stateA.students
    ∧ (handleStatusChange "zzz" .LATE stateA).hasChanges = true :=
  C4_unknown_id_silent_flag_set stateA "zzz" .LATE (by decide)

/-- C6 counterexample: load applied to a state carrying an unsaved edit
(`stateB`, where `hasChanges = true`).  Immediately after `loadStudents`
the buffer holds the new roster, but the dirty flag is still true:
`loadStudents` never resets it, contradicting "every record's dirty flag
is false" right after load. -/
theorem C6_counterexample :
    stateB.hasChanges = true
    ∧ (loadStudents rosterB stateB).hasChanges = true
    ∧ (loadStudents rosterB stateB).students.map (fun s => s.id)
      = ["s3"] := by
  refine ⟨rfl, rfl, ?_⟩
  decide

/-- C6 amended: after `loadStudents d`, the buffer holds exactly one
record per roster element, in order (same length, same ids; when the
roster ids are duplicate-free each id occurs exactly once), but the
change flag is not reset: it keeps whatever value it had before the
load. -/
theorem C6_load_one_record_per_entity (d : List AttendanceStudent)
    (st : AttendanceState) :
    (loadStudents d st).students.length = d.length
    ∧ (loadStudents d st).students.map (fun s => s.id)
        = d.map (fun s => s.id)
    ∧ (loadStudents d st).hasChanges = st.hasChanges
    ∧ ((d.map (fun s => s.id)).Nodup → ∀ s ∈ d,
        ((loadStudents d st).students.map (fun s => s.id)).count s.id
          = 1) := by
  have hmap : (loadStudents d st).students.map (fun s => s.id)
      = d.map (fun s => s.id) := by
    simp [loadStudents]
  refine ⟨by simp [loadStudents], hmap, rfl, ?_⟩
  intro hnodup s hs
  rw [hmap]
  exact List.count_eq_one_of_mem hnodup (List.mem_map_of_mem _ hs)

/-- Witness for C6: the amended theorem at the concrete roster
`rosterA`, whose ids are duplicate-free. -/
theorem C6_witness :
    ((loadStudents rosterA (initialState "2026-10-11")).students.map
      (fun s => s.id)).count "s1" = 1 :=
  (C6_load_one_record_per_entity rosterA
    (initialState "2026-10-11")).2.2.2 (by decide)
    { id := "s1", firstName := "Ann", lastName := "Ali", rollNumber := "1",
      defaultStatus := .PRESENT } (by decide)

/-- C10: `handleStatusChange id status` preserves the buffer's length
and, position by position, every field of every record except the status
of records whose id matches: a matching record keeps its id, roll
number and names and gets the new status; a non-matching record is
unchanged in all fields. -/
theorem C10_setStatus_frame (st : AttendanceState) (studentId : String)
    (status : AttendanceStatus) :
    (handleStatusChange studentId status st).students.length
      = st.students.length
    ∧ ∀ i (hi : i < st.students.length)
        (hi' : i < (handleStatusChange studentId status st).students.length),
        ((handleStatusChange studentId status st).students.get ⟨i, hi'⟩).id
            = (st.students.get ⟨i, hi⟩).id
        ∧ ((handleStatusChange studentId status st).students.get
            ⟨i, hi'⟩).rollNumber = (st.students.get ⟨i, hi⟩).rollNumber
        ∧ ((handleStatusChange studentId status st).students.get
            ⟨i, hi'⟩).firstName = (st.students.get ⟨i, hi⟩).firstName
        ∧ ((handleStatusChange studentId status st).students.get
            ⟨i, hi'⟩).lastName = (st.students.get ⟨i, hi⟩).lastName
        ∧ ((handleStatusChange studentId status st).students.get
            ⟨i, hi'⟩).status
            = (if (st.students.get ⟨i, hi⟩).id = studentId then status
               else (st.students.get ⟨i, hi⟩).status) := by
  refine ⟨by simp [handleStatusChange], ?_⟩
  intro i hi hi'
  simp only [handleStatusChange, List.get_eq_getElem, List.getElem_map]
  split <;> simp_all

/-- Witness for C10: the frame theorem at `stateA`, position 0 (the
matching record s1) and position 1 (the untouched record s2). -/
theorem C10_witness :
    ((handleStatusChange "s1" .ABSENT stateA).students.get
      ⟨0, by decide⟩).status = .ABSENT
    ∧ ((handleStatusChange "s1" .ABSENT stateA).students.get
      ⟨1, by decide⟩).status = .PRESENT := by
  have h0 := (C10_setStatus_frame stateA "s1" .ABSENT).2 0
    (by decide) (by decide)
  have h1 := (C10_setStatus_frame stateA "s1" .ABSENT).2 1
    (by decide) (by decide)
  exact ⟨h0.2.2.2.2.trans (by decide), h1.2.2.2.2.trans (by decide)⟩

end SchoolSystem
